/-
  Verification of the NumPy datetime/timedelta value engine
  (numpy/core/src/multiarray/datetime.c).

  The C code is embedded shallowly: machine integers become `Int`/`Nat`
  (with explicit wrapping modulo 2^64 or 2^32 where the C code relies on
  unsigned/truncating behaviour), C truncating division/remainder become
  the helpers `cdiv`/`cmod`, and fallible functions return `Except`.
-/
import Mathlib

set_option maxHeartbeats 1000000

/-! ## C arithmetic helpers -/

/-- C99 signed integer division: truncation toward zero (for any divisor). -/
def cdiv (x n : Int) : Int := if 0 ≤ x then x / n else -((-x) / n)

/-- C99 signed remainder: sign follows the dividend, `x = (x/n)*n + x%n`. -/
def cmod (x n : Int) : Int := if 0 ≤ x then x % n else -((-x) % n)

/-- Multiplication of two `npy_uint64` values (wraps modulo 2^64). -/
def mul64 (x y : Nat) : Nat := (x * y) % 18446744073709551616

/-- The C cast `(npy_uint64)x` of a signed value (two's complement). -/
def u64ofInt (x : Int) : Nat := (x % 18446744073709551616).toNat

/-- The C cast `(int)n` of an `npy_uint64` value (keep low 32 bits, signed). -/
def int_of_u64 (n : Nat) : Int :=
  let low := n % 4294967296
  if low < 2147483648 then (low : Int) else (low : Int) - 4294967296

/-- The C cast `(npy_int64)n` of an `npy_uint64` value. -/
def i64_of_u64 (n : Nat) : Int :=
  if n % 18446744073709551616 < 9223372036854775808 then
    ((n % 18446744073709551616 : Nat) : Int)
  else ((n % 18446744073709551616 : Nat) : Int) - 18446744073709551616

/-- `NPY_DATETIME_NAT`: the Not-a-Time sentinel, `i64::MIN`. -/
def NPY_DATETIME_NAT : Int := -9223372036854775808

/-! ## Data model -/

/-- The `NPY_DATETIMEUNIT` enum, in declaration order (`Y` = 0 … generic = 14). -/
inductive NPY_DATETIMEUNIT where
  | NPY_FR_Y | NPY_FR_M | NPY_FR_W | NPY_FR_B | NPY_FR_D
  | NPY_FR_h | NPY_FR_m | NPY_FR_s | NPY_FR_ms | NPY_FR_us
  | NPY_FR_ns | NPY_FR_ps | NPY_FR_fs | NPY_FR_as | NPY_FR_GENERIC
  deriving DecidableEq, Repr, Fintype

open NPY_DATETIMEUNIT

/-- The numeric value of a unit in the C enum. -/
def NPY_DATETIMEUNIT.toNat : NPY_DATETIMEUNIT → Nat
  | NPY_FR_Y => 0 | NPY_FR_M => 1 | NPY_FR_W => 2 | NPY_FR_B => 3
  | NPY_FR_D => 4 | NPY_FR_h => 5 | NPY_FR_m => 6 | NPY_FR_s => 7
  | NPY_FR_ms => 8 | NPY_FR_us => 9 | NPY_FR_ns => 10 | NPY_FR_ps => 11
  | NPY_FR_fs => 12 | NPY_FR_as => 13 | NPY_FR_GENERIC => 14

/-- `PyArray_DatetimeMetaData`: a base unit together with a multiplier
(`num` is a C `int`). -/
structure PyArray_DatetimeMetaData where
  base : NPY_DATETIMEUNIT
  num : Int
  deriving DecidableEq, Repr

/-- `npy_datetimestruct`: the broken-down date/time form.  `year` is
`npy_int64`; the other fields are C `int`s. -/
structure npy_datetimestruct where
  year : Int
  month : Int
  day : Int
  hour : Int
  min : Int
  sec : Int
  us : Int
  ps : Int
  as' : Int
  deriving DecidableEq, Repr

/-- Python error kinds raised by the engine. -/
inductive PyErr where
  | ValueError | TypeError | OverflowError
  deriving DecidableEq, Repr

deriving instance DecidableEq for Except

/-! ## Calendar kernel -/

/-- `get_day_of_week`: day of the week for a `datetime64[D]` value
(1970-01-05 is Monday = 0). -/
def get_day_of_week (date : Int) : Int :=
  let day_of_week := cmod (date - 4) 7
  if day_of_week < 0 then day_of_week + 7 else day_of_week

/-- `_days_per_month_table`: days per month, regular year and leap year. -/
def _days_per_month_table (leap : Bool) : List Int :=
  if leap then [31, 29, 31, 30, 31, 30, 31, 31, 30, 31, 30, 31]
  else [31, 28, 31, 30, 31, 30, 31, 31, 30, 31, 30, 31]

/-- `is_leapyear`: 1 iff the given year is a (proleptic Gregorian) leap
year.  The C tests `(year & 0x3) == 0`, i.e. `year % 4 == 0`. -/
def is_leapyear (year : Int) : Bool :=
  cmod year 4 == 0 && (cmod year 100 != 0 || cmod year 400 == 0)

/-- The `for (i = 0; i < month; ++i) days += month_lengths[i];` loop of
`get_datetimestruct_days`, as a prefix sum of the month-length table. -/
def month_prefix_sum (month_lengths : List Int) (month : Int) : Int :=
  (month_lengths.take month.toNat).sum

/-- `get_datetimestruct_days`: days offset from the 1970 epoch. -/
def get_datetimestruct_days (dts : npy_datetimestruct) : Int :=
  let year := dts.year - 1970
  let days := year * 365
  let days :=
    if 0 ≤ days then
      -- 1968 is the closest leap year before 1970; exclude the current year
      let year := year + 1
      let days := days + cdiv year 4
      let year := year + 68
      let days := days - cdiv year 100
      let year := year + 300
      days + cdiv year 400
    else
      -- 1972 is the closest later year after 1970; include the current year
      let year := year - 2
      let days := days + cdiv year 4
      let year := year - 28
      let days := days - cdiv year 100
      days + cdiv year 400
  let month_lengths := _days_per_month_table (is_leapyear dts.year)
  let days := days + month_prefix_sum month_lengths (dts.month - 1)
  days + (dts.day - 1)

/-- The second half of `days_to_yearsdays`: works out the year and day
within the 400 year cycle (`year` is the 400-year-cycle base relative to
2000, `days` the day offset within the cycle). -/
def days_to_yearsdays_peel (year days : Int) : Int × Int :=
  if 366 ≤ days then
    let year := year + 100 * cdiv (days - 1) (100 * 365 + 25 - 1)
    let days := cmod (days - 1) (100 * 365 + 25 - 1)
    if 365 ≤ days then
      let year := year + 4 * cdiv (days + 1) (4 * 365 + 1)
      let days := cmod (days + 1) (4 * 365 + 1)
      if 366 ≤ days then
        (year + cdiv (days - 1) 365 + 2000, cmod (days - 1) 365)
      else (year + 2000, days)
    else (year + 2000, days)
  else (year + 2000, days)

/-- `days_to_yearsdays`: splits a day offset from 1970 into the year and
the day offset within that year. -/
def days_to_yearsdays (days_ : Int) : Int × Int :=
  let days_per_400years : Int := 400 * 365 + 100 - 4 + 1
  -- adjust so it's relative to the year 2000 (divisible by 400)
  let days := days_ - (365 * 30 + 7)
  let year :=
    if 0 ≤ days then 400 * cdiv days days_per_400years
    else 400 * cdiv (days - (days_per_400years - 1)) days_per_400years
  let days :=
    if 0 ≤ days then cmod days days_per_400years
    else
      let d := cmod days days_per_400years
      if d < 0 then d + days_per_400years else d
  days_to_yearsdays_peel year days

/-- The month-finding loop of `set_datetimestruct_days`: returns the
`(month, day)` pair, or the previous field values if the loop falls
through without finding a month. -/
def set_days_loop : Int → List Int → Int → Int × Int → Int × Int
  | _, [], _, md => md
  | i, ml :: rest, days, md =>
    if days < ml then (i + 1, days + 1)
    else set_days_loop (i + 1) rest (days - ml) md

/-- `set_datetimestruct_days`: fills in year, month, day from a day
offset from 1970. -/
def set_datetimestruct_days (days : Int) (dts : npy_datetimestruct) :
    npy_datetimestruct :=
  let yd := days_to_yearsdays days
  let month_lengths := _days_per_month_table (is_leapyear yd.1)
  let md := set_days_loop 0 month_lengths yd.2 (dts.month, dts.day)
  { dts with year := yd.1, month := md.1, day := md.2 }

/-- A statement-level helper: the length of a month, read from the same
table the code uses. -/
def days_in_month (year month : Int) : Int :=
  (_days_per_month_table (is_leapyear year)).getD (month - 1).toNat 0

/-- `get_nweekdays`: number of weekdays between two day offsets. -/
def get_nweekdays (first second : Int) : Int :=
  let swapped := second < first
  let f := if swapped then second else first
  let s := if swapped then first else second
  let dotw_first := get_day_of_week f
  let dotw_second := get_day_of_week s
  let dotw_first := if 4 < dotw_first then 4 else dotw_first
  let dotw_second := if 4 < dotw_second then 4 else dotw_second
  let dotw_second :=
    if dotw_second < dotw_first then dotw_second + 5 else dotw_second
  let ndays := cdiv (s - f) 7 * 5 + (dotw_second - dotw_first)
  if swapped then -ndays else ndays

example : get_datetimestruct_days ⟨2000, 2, 29, 0, 0, 0, 0, 0, 0⟩ = 11016 := by
  decide

example : days_to_yearsdays 11016 = (2000, 59) := by decide

example : get_datetimestruct_days ⟨1969, 12, 31, 0, 0, 0, 0, 0, 0⟩ = -1 := by
  decide

/-! ## Struct adjustment helpers -/

/-- The `while (dts->min < 0)` loop of `add_minutes_to_datetimestruct`. -/
def carry_min_neg (mn hour : Int) : Int × Int :=
  if mn < 0 then carry_min_neg (mn + 60) (hour - 1) else (mn, hour)
termination_by (-mn).toNat
decreasing_by simp_wf; omega

/-- The `while (dts->min >= 60)` loop of `add_minutes_to_datetimestruct`. -/
def carry_min_big (mn hour : Int) : Int × Int :=
  if 60 ≤ mn then carry_min_big (mn - 60) (hour + 1) else (mn, hour)
termination_by mn.toNat
decreasing_by simp_wf; omega

/-- The `while (dts->hour < 0)` loop of `add_minutes_to_datetimestruct`. -/
def carry_hour_neg (hour day : Int) : Int × Int :=
  if hour < 0 then carry_hour_neg (hour + 24) (day - 1) else (hour, day)
termination_by (-hour).toNat
decreasing_by simp_wf; omega

/-- The `while (dts->hour >= 24)` loop of `add_minutes_to_datetimestruct`. -/
def carry_hour_big (hour day : Int) : Int × Int :=
  if 24 ≤ hour then carry_hour_big (hour - 24) (day + 1) else (hour, day)
termination_by hour.toNat
decreasing_by simp_wf; omega

/-- `add_minutes_to_datetimestruct`: adjusts a (valid) struct by a minute
offset, carrying through hours, days, months and years. -/
def add_minutes_to_datetimestruct (dts : npy_datetimestruct) (minutes : Int) :
    npy_datetimestruct :=
  -- MINUTES
  let mh := carry_min_big (carry_min_neg (dts.min + minutes) dts.hour).1
      (carry_min_neg (dts.min + minutes) dts.hour).2
  -- HOURS
  let hd := carry_hour_big (carry_hour_neg mh.2 dts.day).1
      (carry_hour_neg mh.2 dts.day).2
  let dts := { dts with min := mh.1, hour := hd.1, day := hd.2 }
  -- DAYS
  if dts.day < 1 then
    let month' := dts.month - 1
    let year := if month' < 1 then dts.year - 1 else dts.year
    let month := if month' < 1 then 12 else month'
    let isleap := is_leapyear year
    let day := dts.day + (_days_per_month_table isleap).getD (month - 1).toNat 0
    { dts with year := year, month := month, day := day }
  else if 28 < dts.day then
    let isleap := is_leapyear dts.year
    if (_days_per_month_table isleap).getD (dts.month - 1).toNat 0 < dts.day then
      let day := dts.day - (_days_per_month_table isleap).getD (dts.month - 1).toNat 0
      let month' := dts.month + 1
      let year := if 12 < month' then dts.year + 1 else dts.year
      let month := if 12 < month' then 1 else month'
      { dts with year := year, month := month, day := day }
    else dts
  else dts

/-- `add_seconds_to_datetimestruct`: adjusts a (valid) struct by a
seconds offset. -/
def add_seconds_to_datetimestruct (dts : npy_datetimestruct) (seconds : Int) :
    npy_datetimestruct :=
  let sec := dts.sec + seconds
  if sec < 0 then
    let minutes := cdiv sec 60
    let sec := cmod sec 60
    let minutes := if sec < 0 then minutes - 1 else minutes
    let sec := if sec < 0 then sec + 60 else sec
    add_minutes_to_datetimestruct { dts with sec := sec } minutes
  else if 60 ≤ sec then
    add_minutes_to_datetimestruct { dts with sec := cmod sec 60 } (cdiv sec 60)
  else { dts with sec := sec }

/-! ## Struct↔value codec -/

/-- `convert_datetimestruct_to_datetime`: packs a broken-down struct into a
datetime value under the given metadata. -/
def convert_datetimestruct_to_datetime (meta : PyArray_DatetimeMetaData)
    (dts : npy_datetimestruct) : Except PyErr Int :=
  -- if the datetimestruct is NaT, return NaT
  if dts.year = NPY_DATETIME_NAT then .ok NPY_DATETIME_NAT
  -- cannot instantiate a datetime with generic units
  else if meta.base = NPY_FR_GENERIC then .error .ValueError
  else
    let days := get_datetimestruct_days dts
    let ret : Int :=
      match meta.base with
      | NPY_FR_Y => dts.year - 1970
      | NPY_FR_M => 12 * (dts.year - 1970) + (dts.month - 1)
      | NPY_FR_W => if 0 ≤ days then cdiv days 7 else cdiv (days - 6) 7
      | NPY_FR_B => get_nweekdays 0 days
      | NPY_FR_D => days
      | NPY_FR_h => days * 24 + dts.hour
      | NPY_FR_m => (days * 24 + dts.hour) * 60 + dts.min
      | NPY_FR_s => ((days * 24 + dts.hour) * 60 + dts.min) * 60 + dts.sec
      | NPY_FR_ms =>
        (((days * 24 + dts.hour) * 60 + dts.min) * 60 + dts.sec) * 1000 +
          cdiv dts.us 1000
      | NPY_FR_us =>
        (((days * 24 + dts.hour) * 60 + dts.min) * 60 + dts.sec) * 1000000 +
          dts.us
      | NPY_FR_ns =>
        ((((days * 24 + dts.hour) * 60 + dts.min) * 60 + dts.sec) * 1000000 +
          dts.us) * 1000 + cdiv dts.ps 1000
      | NPY_FR_ps =>
        ((((days * 24 + dts.hour) * 60 + dts.min) * 60 + dts.sec) * 1000000 +
          dts.us) * 1000000 + dts.ps
      | NPY_FR_fs =>
        (((((days * 24 + dts.hour) * 60 + dts.min) * 60 + dts.sec) * 1000000 +
          dts.us) * 1000000 + dts.ps) * 1000 + cdiv dts.as' 1000
      | NPY_FR_as =>
        (((((days * 24 + dts.hour) * 60 + dts.min) * 60 + dts.sec) * 1000000 +
          dts.us) * 1000000 + dts.ps) * 1000000 + dts.as'
      | NPY_FR_GENERIC => 0   -- unreachable: generic was rejected above
    -- divide by the multiplier, rounding toward -∞
    let ret :=
      if 1 < meta.num then
        if 0 ≤ ret then cdiv ret meta.num
        else cdiv (ret - meta.num + 1) meta.num
      else ret
    .ok ret

/-- The `dt >= 0 ? ... : ...` day/intra-day split used by every time unit
of `convert_datetime_to_datetimestruct`: returns the day offset fed to
`set_datetimestruct_days` and the remaining ticks within the day. -/
def split_perday (dt perday : Int) : Int × Int :=
  if 0 ≤ dt then (cdiv dt perday, cmod dt perday)
  else (cdiv (dt - (perday - 1)) perday, (perday - 1) + cmod (dt + 1) perday)

/-- `convert_datetime_to_datetimestruct`: unpacks a datetime value into a
broken-down struct under the given metadata. -/
def convert_datetime_to_datetimestruct (meta : PyArray_DatetimeMetaData)
    (dt : Int) : Except PyErr npy_datetimestruct :=
  -- initialize the output to 1970-01-01 with all time fields zero
  let out : npy_datetimestruct := ⟨1970, 1, 1, 0, 0, 0, 0, 0, 0⟩
  -- NaT is signaled in the year
  if dt = NPY_DATETIME_NAT then .ok { out with year := NPY_DATETIME_NAT }
  -- datetimes can't be in generic units
  else if meta.base = NPY_FR_GENERIC then .error .ValueError
  else
    let dt := dt * meta.num
    match meta.base with
    | NPY_FR_Y => .ok { out with year := 1970 + dt }
    | NPY_FR_M =>
      if 0 ≤ dt then
        .ok { out with year := 1970 + cdiv dt 12, month := cmod dt 12 + 1 }
      else
        .ok { out with year := 1969 + cdiv (dt + 1) 12,
                       month := 12 + cmod (dt + 1) 12 }
    | NPY_FR_W => .ok (set_datetimestruct_days (dt * 7) out)
    | NPY_FR_B =>
      -- convert the business day to the number of actual days
      let absdays :=
        if 0 ≤ dt then 7 * cdiv (dt + 3) 5 + cmod (dt + 3) 5 - 3
        else 7 * cdiv (dt - 1) 5 + cmod (dt - 1) 5 + 1
      .ok (set_datetimestruct_days absdays out)
    | NPY_FR_D => .ok (set_datetimestruct_days dt out)
    | NPY_FR_h =>
      let s := split_perday dt 24
      .ok { set_datetimestruct_days s.1 out with hour := s.2 }
    | NPY_FR_m =>
      let s := split_perday dt (24 * 60)
      .ok { set_datetimestruct_days s.1 out with
              hour := cdiv s.2 60, min := cmod s.2 60 }
    | NPY_FR_s =>
      let s := split_perday dt (24 * 60 * 60)
      .ok { set_datetimestruct_days s.1 out with
              hour := cdiv s.2 (60 * 60),
              min := cmod (cdiv s.2 60) 60,
              sec := cmod s.2 60 }
    | NPY_FR_ms =>
      let s := split_perday dt (24 * 60 * 60 * 1000)
      .ok { set_datetimestruct_days s.1 out with
              hour := cdiv s.2 (60 * 60 * 1000),
              min := cmod (cdiv s.2 (60 * 1000)) 60,
              sec := cmod (cdiv s.2 1000) 60,
              us := cmod s.2 1000 * 1000 }
    | NPY_FR_us =>
      let s := split_perday dt (24 * 60 * 60 * 1000 * 1000)
      .ok { set_datetimestruct_days s.1 out with
              hour := cdiv s.2 (60 * 60 * 1000000),
              min := cmod (cdiv s.2 (60 * 1000000)) 60,
              sec := cmod (cdiv s.2 1000000) 60,
              us := cmod s.2 1000000 }
    | NPY_FR_ns =>
      let s := split_perday dt (24 * 60 * 60 * 1000 * 1000 * 1000)
      .ok { set_datetimestruct_days s.1 out with
              hour := cdiv s.2 (60 * 60 * 1000000000),
              min := cmod (cdiv s.2 (60 * 1000000000)) 60,
              sec := cmod (cdiv s.2 1000000000) 60,
              us := cmod (cdiv s.2 1000) 1000000,
              ps := cmod s.2 1000 * 1000 }
    | NPY_FR_ps =>
      let s := split_perday dt (24 * 60 * 60 * 1000 * 1000 * 1000 * 1000)
      .ok { set_datetimestruct_days s.1 out with
              hour := cdiv s.2 (60 * 60 * 1000000000000),
              min := cmod (cdiv s.2 (60 * 1000000000000)) 60,
              sec := cmod (cdiv s.2 1000000000000) 60,
              us := cmod (cdiv s.2 1000000) 1000000,
              ps := cmod s.2 1000000 }
    | NPY_FR_fs =>
      -- entire range is only ±2.6 hours
      if 0 ≤ dt then
        .ok { out with
                hour := cdiv dt (60 * 60 * 1000000000000000),
                min := cmod (cdiv dt (60 * 1000000000000000)) 60,
                sec := cmod (cdiv dt 1000000000000000) 60,
                us := cmod (cdiv dt 1000000000) 1000000,
                ps := cmod (cdiv dt 1000) 1000000,
                as' := cmod dt 1000 * 1000 }
      else
        let minutes := cdiv dt (60 * 1000000000000000)
        let dt' := cmod dt (60 * 1000000000000000)
        let minutes := if dt' < 0 then minutes - 1 else minutes
        let dt' := if dt' < 0 then dt' + 60 * 1000000000000000 else dt'
        let out := add_minutes_to_datetimestruct out minutes
        .ok { out with
                sec := cmod (cdiv dt' 1000000000000000) 60,
                us := cmod (cdiv dt' 1000000000) 1000000,
                ps := cmod (cdiv dt' 1000) 1000000,
                as' := cmod dt' 1000 * 1000 }
    | NPY_FR_as =>
      -- entire range is only ±9.2 seconds
      if 0 ≤ dt then
        .ok { out with
                sec := cmod (cdiv dt 1000000000000000000) 60,
                us := cmod (cdiv dt 1000000000000) 1000000,
                ps := cmod (cdiv dt 1000000) 1000000,
                as' := cmod dt 1000000 }
      else
        let seconds := cdiv dt 1000000000000000000
        let dt' := cmod dt 1000000000000000000
        let seconds := if dt' < 0 then seconds - 1 else seconds
        let dt' := if dt' < 0 then dt' + 1000000000000000000 else dt'
        let out := add_seconds_to_datetimestruct out seconds
        .ok { out with
                us := cmod (cdiv dt' 1000000000000) 1000000,
                ps := cmod (cdiv dt' 1000000) 1000000,
                as' := cmod dt' 1000000 }
    | NPY_FR_GENERIC => .error .ValueError   -- unreachable: rejected above

example :
    convert_datetimestruct_to_datetime ⟨NPY_FR_D, 1⟩ ⟨2000, 2, 29, 0, 0, 0, 0, 0, 0⟩ =
      .ok 11016 := by decide
example :
    convert_datetime_to_datetimestruct ⟨NPY_FR_D, 1⟩ 11016 =
      .ok ⟨2000, 2, 29, 0, 0, 0, 0, 0, 0⟩ := by decide
example :
    convert_datetime_to_datetimestruct ⟨NPY_FR_D, 1⟩ 10957 =
      .ok ⟨2000, 1, 1, 0, 0, 0, 0, 0, 0⟩ := by decide
example :
    convert_datetimestruct_to_datetime ⟨NPY_FR_s, 1⟩ ⟨1969, 12, 31, 23, 59, 59, 0, 0, 0⟩ =
      .ok (-1) := by decide
example :
    convert_datetime_to_datetimestruct ⟨NPY_FR_s, 1⟩ (-1) =
      .ok ⟨1969, 12, 31, 23, 59, 59, 0, 0, 0⟩ := by decide

/-! ## Claims C2, C5, C6: codec facts -/

/-- C2 (counterexample): the spec's example is wrong — the struct
2000-02-29 at unit `D`/1 does **not** pack to 10957, and the value 10957
does not unpack to 2000-02-29 (10957 is 2000-01-01). -/
theorem datetime_day_2000_02_29_not_10957 :
    ¬(convert_datetimestruct_to_datetime ⟨NPY_FR_D, 1⟩
          ⟨2000, 2, 29, 0, 0, 0, 0, 0, 0⟩ = .ok 10957 ∧
      convert_datetime_to_datetimestruct ⟨NPY_FR_D, 1⟩ 10957 =
          .ok ⟨2000, 2, 29, 0, 0, 0, 0, 0, 0⟩) := by decide

/-- C2 (amended): the struct 2000-02-29 00:00:00 at unit `D`/1 packs to
11016, and the value 11016 at unit `D`/1 unpacks back to
2000-02-29 00:00:00.0. -/
theorem datetime_day_2000_02_29_roundtrip :
    convert_datetimestruct_to_datetime ⟨NPY_FR_D, 1⟩
        ⟨2000, 2, 29, 0, 0, 0, 0, 0, 0⟩ = .ok 11016 ∧
    convert_datetime_to_datetimestruct ⟨NPY_FR_D, 1⟩ 11016 =
        .ok ⟨2000, 2, 29, 0, 0, 0, 0, 0, 0⟩ := by decide

/-- C6: the struct 1969-12-31 23:59:59 at unit `s`/1 packs to -1, and the
value -1 at unit `s`/1 unpacks back to 1969-12-31 23:59:59 (floor
semantics before the epoch). -/
theorem datetime_second_before_epoch_roundtrip :
    convert_datetimestruct_to_datetime ⟨NPY_FR_s, 1⟩
        ⟨1969, 12, 31, 23, 59, 59, 0, 0, 0⟩ = .ok (-1) ∧
    convert_datetime_to_datetimestruct ⟨NPY_FR_s, 1⟩ (-1) =
        .ok ⟨1969, 12, 31, 23, 59, 59, 0, 0, 0⟩ := by decide

/-- C5: for every metadata, a struct whose year is the NaT sentinel packs
to the NaT value without error, and the NaT value unpacks to a struct
whose year is the NaT sentinel without error (both happen before the
generic-unit check, so this includes generic metadata). -/
theorem nat_struct_value_absorption :
    (∀ (meta : PyArray_DatetimeMetaData) (dts : npy_datetimestruct),
        dts.year = NPY_DATETIME_NAT →
        convert_datetimestruct_to_datetime meta dts = .ok NPY_DATETIME_NAT) ∧
    (∀ meta : PyArray_DatetimeMetaData,
        convert_datetime_to_datetimestruct meta NPY_DATETIME_NAT =
          .ok ⟨NPY_DATETIME_NAT, 1, 1, 0, 0, 0, 0, 0, 0⟩) := by
  constructor
  · intro meta dts h
    simp [convert_datetimestruct_to_datetime, h]
  · intro meta
    simp [convert_datetime_to_datetimestruct]

/-- C5 (witness): the NaT behaviour at a concrete generic metadata and a
concrete NaT struct. -/
theorem nat_struct_value_absorption_witness :
    convert_datetimestruct_to_datetime ⟨NPY_FR_GENERIC, 1⟩
        ⟨NPY_DATETIME_NAT, 1, 1, 0, 0, 0, 0, 0, 0⟩ = .ok NPY_DATETIME_NAT ∧
    convert_datetime_to_datetimestruct ⟨NPY_FR_GENERIC, 1⟩ NPY_DATETIME_NAT =
        .ok ⟨NPY_DATETIME_NAT, 1, 1, 0, 0, 0, 0, 0, 0⟩ :=
  ⟨nat_struct_value_absorption.1 ⟨NPY_FR_GENERIC, 1⟩ _ rfl,
   nat_struct_value_absorption.2 ⟨NPY_FR_GENERIC, 1⟩⟩

/-! ## Unit-factor arithmetic -/

/-- `_datetime_factors`: factor from each unit (by enum value) to the next
finer unit; years, months and business days are placeholders. -/
def _datetime_factors : Nat → Nat
  | 0 => 1      -- years - not used
  | 1 => 1      -- months - not used
  | 2 => 7      -- weeks -> days
  | 3 => 1      -- business days - not used
  | 4 => 24     -- days -> hours
  | 5 => 60     -- hours -> minutes
  | 6 => 60     -- minutes -> seconds
  | 7 => 1000 | 8 => 1000 | 9 => 1000 | 10 => 1000 | 11 => 1000 | 12 => 1000
  | 13 => 1     -- attoseconds are the smallest base unit
  | _ => 0      -- generic units don't have a conversion

/-- The `while (littlebase > unit)` loop of `get_datetime_units_factor`;
the fuel argument counts the remaining iterations. -/
def units_factor_go : Nat → Nat → Nat → Nat
  | 0, _, factor => factor
  | fuel + 1, unit, factor =>
    let factor := mul64 factor (_datetime_factors unit)
    -- detect overflow by disallowing the top 8 bits to be 1
    if factor / 72057594037927936 ≠ 0 then 0
    else units_factor_go fuel (unit + 1) factor

/-- `get_datetime_units_factor`: scale factor between two units, 0 on
overflow. -/
def get_datetime_units_factor (bigbase littlebase : NPY_DATETIMEUNIT) : Nat :=
  units_factor_go (littlebase.toNat - bigbase.toNat) bigbase.toNat 1

/-- The `while (x != y && y != 0)` loop of `_uint64_euclidean_gcd`; the
fuel argument strictly exceeds `y`, which decreases every iteration. -/
def euclid_go : Nat → Nat → Nat → Nat
  | 0, x, _ => x
  | fuel + 1, x, y => if x ≠ y ∧ y ≠ 0 then euclid_go fuel y (x % y) else x

/-- `_uint64_euclidean_gcd`: Euclidean algorithm, with the smaller value
first (the C code swaps so that `x ≤ y` before looping). -/
def _uint64_euclidean_gcd (x y : Nat) : Nat :=
  if y < x then euclid_go (x + 1) y x else euclid_go (y + 1) x y

theorem euclid_go_eq_gcd : ∀ (fuel x y : Nat), y < fuel →
    euclid_go fuel x y = Nat.gcd x y := by
  intro fuel
  induction fuel with
  | zero => intro x y h; omega
  | succ n ih =>
    intro x y h
    rw [euclid_go]
    by_cases hxy : x ≠ y ∧ y ≠ 0
    · rw [if_pos hxy, ih y (x % y) (by have := Nat.mod_lt x (y := y) (by omega); omega)]
      rw [Nat.gcd_comm y (x % y), Nat.gcd_comm x y, Nat.gcd_rec y x]
    · rw [if_neg hxy]
      rcases not_and_or.mp hxy with h1 | h2
      · simp at h1; rw [h1, Nat.gcd_self]
      · simp at h2; rw [h2, Nat.gcd_zero_right]

theorem uint64_euclidean_gcd_eq (x y : Nat) :
    _uint64_euclidean_gcd x y = Nat.gcd x y := by
  rw [_uint64_euclidean_gcd]
  by_cases h : y < x
  · rw [if_pos h, euclid_go_eq_gcd (x + 1) y x (by omega), Nat.gcd_comm]
  · rw [if_neg h, euclid_go_eq_gcd (y + 1) x y (by omega)]

/-- Output of `get_datetime_conversion_factor`: the two out-parameters and
the Python error raised, if any. -/
structure ConversionFactor where
  out_num : Int
  out_denom : Int
  err : Option PyErr
  deriving DecidableEq, Repr

/-- The unit-pair part of `get_datetime_conversion_factor` (the
`if (src_base != dst_base)` body), for an already ordered pair
`src_base ≤ dst_base`: accumulates `num` and `denom` starting at 1.
Conversions from years/months use the factor averaged over the 400 year
leap-year cycle. -/
def conversion_factor_chunk (src_base dst_base : NPY_DATETIMEUNIT) : Nat × Nat :=
  if src_base = dst_base then (1, 1)
  else if src_base = NPY_FR_Y then
    if dst_base = NPY_FR_M then (mul64 1 12, 1)
    else if dst_base = NPY_FR_W then
      (mul64 1 (97 + 400 * 365), mul64 1 (400 * 7))
    else if dst_base = NPY_FR_B then
      -- 97 + 400*365 is divisible by 7: business days in 400 years is exact
      (mul64 (mul64 1 ((97 + 400 * 365) * 5 / 7))
        (get_datetime_units_factor NPY_FR_B dst_base), mul64 1 400)
    else
      (mul64 (mul64 1 (97 + 400 * 365))
        (get_datetime_units_factor NPY_FR_D dst_base), mul64 1 400)
  else if src_base = NPY_FR_M then
    if dst_base = NPY_FR_W then
      (mul64 1 (97 + 400 * 365), mul64 1 (400 * 12 * 7))
    else
      let num := mul64 1 (97 + 400 * 365)
      let denom := mul64 1 (400 * 12)
      let num := if dst_base = NPY_FR_B then mul64 num 5 else num
      let denom := if dst_base = NPY_FR_B then mul64 denom 7 else denom
      (mul64 num (get_datetime_units_factor NPY_FR_D dst_base), denom)
  else (mul64 1 (get_datetime_units_factor src_base dst_base), 1)

/-- The tail of `get_datetime_conversion_factor`: overflow check on the
denominator, swap back, multiply in the two multipliers, and reduce. -/
def conversion_factor_finish (nd : Nat × Nat) (swapped : Bool)
    (src_num dst_num : Int) : ConversionFactor :=
  -- if something overflowed, make both num and denom 0
  if nd.2 = 0 then ⟨0, 0, some .OverflowError⟩
  else
    let num := if swapped then nd.2 else nd.1
    let denom := if swapped then nd.1 else nd.2
    let num := mul64 num (u64ofInt src_num)
    let denom := mul64 denom (u64ofInt dst_num)
    -- return as a fraction in reduced form
    let gcd := _uint64_euclidean_gcd num denom
    ⟨i64_of_u64 (num / gcd), i64_of_u64 (denom / gcd), none⟩

/-- `get_datetime_conversion_factor`: conversion factor between two
metadata, as an unreduced-then-reduced `num/denom` rational. -/
def get_datetime_conversion_factor (src_meta dst_meta : PyArray_DatetimeMetaData) :
    ConversionFactor :=
  -- generic units change to the destination with no conversion factor
  if src_meta.base = NPY_FR_GENERIC then ⟨1, 1, none⟩
  -- converting to a generic unit from a specific one is an error
  else if dst_meta.base = NPY_FR_GENERIC then ⟨0, 0, some .ValueError⟩
  else
    let swapped : Bool := decide (dst_meta.base.toNat < src_meta.base.toNat)
    let src_base := if swapped then dst_meta.base else src_meta.base
    let dst_base := if swapped then src_meta.base else dst_meta.base
    conversion_factor_finish (conversion_factor_chunk src_base dst_base)
      swapped src_meta.num dst_meta.num

/-! ## Metadata divisibility and cast rules -/

/-- The final part of `datetime_metadata_divides`: the crude overflow
check followed by the divisibility test. -/
def divides_final (num1 num2 : Nat) : Bool :=
  -- crude, incomplete check for overflow
  if num1 / 72057594037927936 ≠ 0 ∨ num2 / 72057594037927936 ≠ 0 then false
  else num1 % num2 == 0

/-- The nonlinear-units chain of `datetime_metadata_divides` for distinct
bases: either an early `return` (`Except.error`) or updated multipliers
that fall through (`Except.ok`) to the factor scaling. -/
def divides_nonlinear_adjust (dividend divisor : PyArray_DatetimeMetaData)
    (strict : Bool) (num1 num2 : Nat) : Except Bool (Nat × Nat) :=
  if dividend.base = NPY_FR_B ∨ divisor.base = NPY_FR_B then .error false
  else if dividend.base = NPY_FR_Y then
    if divisor.base = NPY_FR_M then .ok (mul64 num1 12, num2)
    else if strict then .error false
    else .error true
  else if divisor.base = NPY_FR_Y then
    if dividend.base = NPY_FR_M then .ok (num1, mul64 num2 12)
    else if strict then .error false
    else .error true
  else if dividend.base = NPY_FR_M ∨ divisor.base = NPY_FR_M then
    if strict then .error false else .error true
  else .ok (num1, num2)

/-- `datetime_metadata_divides`: whether `divisor` divides evenly into
`dividend`. -/
def datetime_metadata_divides (dividend divisor : PyArray_DatetimeMetaData)
    (strict_with_nonlinear_units : Bool) : Bool :=
  -- generic units divide into anything, nothing else divides into generic
  if divisor.base = NPY_FR_GENERIC then true
  else if dividend.base = NPY_FR_GENERIC then false
  else
    let num1 := u64ofInt dividend.num
    let num2 := u64ofInt divisor.num
    if dividend.base ≠ divisor.base then
      match divides_nonlinear_adjust dividend divisor
          strict_with_nonlinear_units num1 num2 with
      | .error b => b
      | .ok nn =>
        -- take the greater base (unit sizes are decreasing in enum)
        if divisor.base.toNat < dividend.base.toNat then
          let num2 := mul64 nn.2 (get_datetime_units_factor divisor.base dividend.base)
          if num2 = 0 then false else divides_final nn.1 num2
        else
          let num1 := mul64 nn.1 (get_datetime_units_factor dividend.base divisor.base)
          if num1 = 0 then false else divides_final num1 nn.2
    else divides_final num1 num2

/-- The `NPY_CASTING` enum. -/
inductive NPY_CASTING where
  | NPY_NO_CASTING | NPY_EQUIV_CASTING | NPY_SAFE_CASTING
  | NPY_SAME_KIND_CASTING | NPY_UNSAFE_CASTING
  deriving DecidableEq, Repr, Fintype

/-- `can_cast_datetime64_units`: casting rules for DATETIME units, with a
barrier between date units (`≤ D`) and time units. -/
def can_cast_datetime64_units (src_unit dst_unit : NPY_DATETIMEUNIT)
    (casting : NPY_CASTING) : Bool :=
  match casting with
  | .NPY_UNSAFE_CASTING => true
  | .NPY_SAME_KIND_CASTING =>
    if src_unit = NPY_FR_GENERIC ∨ dst_unit = NPY_FR_GENERIC then
      src_unit == dst_unit
    else
      (decide (src_unit.toNat ≤ NPY_FR_D.toNat) &&
       decide (dst_unit.toNat ≤ NPY_FR_D.toNat)) ||
      (decide (NPY_FR_D.toNat < src_unit.toNat) &&
       decide (NPY_FR_D.toNat < dst_unit.toNat))
  | .NPY_SAFE_CASTING =>
    if src_unit = NPY_FR_GENERIC ∨ dst_unit = NPY_FR_GENERIC then
      src_unit == dst_unit
    else
      decide (src_unit.toNat ≤ dst_unit.toNat) &&
      ((decide (src_unit.toNat ≤ NPY_FR_D.toNat) &&
        decide (dst_unit.toNat ≤ NPY_FR_D.toNat)) ||
       (decide (NPY_FR_D.toNat < src_unit.toNat) &&
        decide (NPY_FR_D.toNat < dst_unit.toNat)))
  | _ => src_unit == dst_unit

/-- `can_cast_timedelta64_units`: casting rules for TIMEDELTA units, with
a barrier between the nonlinear units (`≤ M`) and all the others. -/
def can_cast_timedelta64_units (src_unit dst_unit : NPY_DATETIMEUNIT)
    (casting : NPY_CASTING) : Bool :=
  match casting with
  | .NPY_UNSAFE_CASTING => true
  | .NPY_SAME_KIND_CASTING =>
    if src_unit = NPY_FR_GENERIC ∨ dst_unit = NPY_FR_GENERIC then
      src_unit == dst_unit
    else
      (decide (src_unit.toNat ≤ NPY_FR_M.toNat) &&
       decide (dst_unit.toNat ≤ NPY_FR_M.toNat)) ||
      (decide (NPY_FR_M.toNat < src_unit.toNat) &&
       decide (NPY_FR_M.toNat < dst_unit.toNat))
  | .NPY_SAFE_CASTING =>
    if src_unit = NPY_FR_GENERIC ∨ dst_unit = NPY_FR_GENERIC then
      src_unit == dst_unit
    else
      decide (src_unit.toNat ≤ dst_unit.toNat) &&
      ((decide (src_unit.toNat ≤ NPY_FR_M.toNat) &&
        decide (dst_unit.toNat ≤ NPY_FR_M.toNat)) ||
       (decide (NPY_FR_M.toNat < src_unit.toNat) &&
        decide (NPY_FR_M.toNat < dst_unit.toNat)))
  | _ => src_unit == dst_unit

/-- `can_cast_datetime64_metadata`: casting rules for DATETIME metadata. -/
def can_cast_datetime64_metadata (src_meta dst_meta : PyArray_DatetimeMetaData)
    (casting : NPY_CASTING) : Bool :=
  match casting with
  | .NPY_UNSAFE_CASTING => true
  | .NPY_SAME_KIND_CASTING =>
    can_cast_datetime64_units src_meta.base dst_meta.base casting
  | .NPY_SAFE_CASTING =>
    can_cast_datetime64_units src_meta.base dst_meta.base casting &&
    datetime_metadata_divides src_meta dst_meta false
  | _ => src_meta.base == dst_meta.base && src_meta.num == dst_meta.num

/-- `can_cast_timedelta64_metadata`: casting rules for TIMEDELTA metadata. -/
def can_cast_timedelta64_metadata (src_meta dst_meta : PyArray_DatetimeMetaData)
    (casting : NPY_CASTING) : Bool :=
  match casting with
  | .NPY_UNSAFE_CASTING => true
  | .NPY_SAME_KIND_CASTING =>
    can_cast_timedelta64_units src_meta.base dst_meta.base casting
  | .NPY_SAFE_CASTING =>
    can_cast_timedelta64_units src_meta.base dst_meta.base casting &&
    datetime_metadata_divides src_meta dst_meta true
  | _ => src_meta.base == dst_meta.base && src_meta.num == dst_meta.num

example : get_datetime_conversion_factor ⟨NPY_FR_Y, 1⟩ ⟨NPY_FR_D, 1⟩ =
    ⟨146097, 400, none⟩ := by decide
example : get_datetime_conversion_factor ⟨NPY_FR_W, 1⟩ ⟨NPY_FR_D, 1⟩ =
    ⟨7, 1, none⟩ := by decide
example : get_datetime_conversion_factor ⟨NPY_FR_D, 1⟩ ⟨NPY_FR_as, 1⟩ =
    ⟨0, 1, none⟩ := by decide
example : get_datetime_conversion_factor ⟨NPY_FR_as, 1⟩ ⟨NPY_FR_D, 1⟩ =
    ⟨1, 0, none⟩ := by decide

/-! ## Claim C1: the Safe casting rule -/

theorem toNat_inj_units : ∀ u v : NPY_DATETIMEUNIT, u.toNat = v.toNat → u = v := by
  decide

theorem safe_units_datetime_eq (u v : NPY_DATETIMEUNIT) :
    can_cast_datetime64_units u v .NPY_SAFE_CASTING =
      (can_cast_datetime64_units u v .NPY_SAME_KIND_CASTING &&
       decide (u.toNat ≤ v.toNat)) := by
  revert u v; decide

theorem safe_units_timedelta_eq (u v : NPY_DATETIMEUNIT) :
    can_cast_timedelta64_units u v .NPY_SAFE_CASTING =
      (can_cast_timedelta64_units u v .NPY_SAME_KIND_CASTING &&
       decide (u.toNat ≤ v.toNat)) := by
  revert u v; decide

/-- C1 (counterexample): a Safe datetime cast from `h/1` to `m/1` is legal,
is legal under SameKind, and goes to a finer unit, yet
`metadata_divides(dst, src, strict)` — with the dividend/divisor argument
order written in the spec — is false.  So "Safe ⟺ SameKind ∧ src ≤ dst ∧
metadata_divides(dst, src, strict)" fails as stated. -/
theorem safe_cast_divides_argument_order_counterexample :
    can_cast_datetime64_metadata ⟨NPY_FR_h, 1⟩ ⟨NPY_FR_m, 1⟩
        .NPY_SAFE_CASTING = true ∧
    can_cast_datetime64_metadata ⟨NPY_FR_h, 1⟩ ⟨NPY_FR_m, 1⟩
        .NPY_SAME_KIND_CASTING = true ∧
    NPY_FR_h.toNat ≤ NPY_FR_m.toNat ∧
    datetime_metadata_divides ⟨NPY_FR_m, 1⟩ ⟨NPY_FR_h, 1⟩ false = false := by
  decide

/-- C1 (amended): a cast is legal under Safe iff it is legal under
SameKind, the source unit is coarser than or equal to the destination
unit, and `metadata_divides(src, dst, strict)` holds (the source metadata
is the dividend), with `strict` true for timedelta and false for
datetime. -/
theorem safe_cast_characterization (src dst : PyArray_DatetimeMetaData) :
    (can_cast_datetime64_metadata src dst .NPY_SAFE_CASTING =
      (can_cast_datetime64_metadata src dst .NPY_SAME_KIND_CASTING &&
       decide (src.base.toNat ≤ dst.base.toNat) &&
       datetime_metadata_divides src dst false)) ∧
    (can_cast_timedelta64_metadata src dst .NPY_SAFE_CASTING =
      (can_cast_timedelta64_metadata src dst .NPY_SAME_KIND_CASTING &&
       decide (src.base.toNat ≤ dst.base.toNat) &&
       datetime_metadata_divides src dst true)) := by
  constructor
  · simp only [can_cast_datetime64_metadata]
    rw [safe_units_datetime_eq]
  · simp only [can_cast_timedelta64_metadata]
    rw [safe_units_timedelta_eq]

/-! ## Claims C3 and C8: conversion factors -/

/-- C3 (code bug): when the units factor overflows its top-8-bit guard
(e.g. converting days to attoseconds), `get_datetime_conversion_factor`
returns `num = 0, denom = 1` and raises **no** error: the overflow test
`denom == 0` never fires because the zeroed sentinel lands in `num`.  In
the swapped direction the result is `num = 1, denom = 0`, also without an
error.  The function's own comment promises `(0, 0)` on overflow, and the
spec additionally promises an `OverflowError`. -/
theorem conversion_factor_overflow_not_reported :
    get_datetime_conversion_factor ⟨NPY_FR_D, 1⟩ ⟨NPY_FR_as, 1⟩ =
        ⟨0, 1, none⟩ ∧
    get_datetime_conversion_factor ⟨NPY_FR_as, 1⟩ ⟨NPY_FR_D, 1⟩ =
        ⟨1, 0, none⟩ := by decide

/-- Both conversion factors between two metadata are usable: no error was
raised and neither output is the overflow sentinel 0. -/
def conversion_factor_defined (a b : PyArray_DatetimeMetaData) : Prop :=
  (get_datetime_conversion_factor a b).err = none ∧
  (get_datetime_conversion_factor a b).out_num ≠ 0 ∧
  (get_datetime_conversion_factor a b).out_denom ≠ 0

theorem conversion_factor_finish_transpose (nd : Nat × Nat) (x y : Int) :
    conversion_factor_finish nd false x y =
      ⟨(conversion_factor_finish nd true y x).out_denom,
       (conversion_factor_finish nd true y x).out_num,
       (conversion_factor_finish nd true y x).err⟩ := by
  unfold conversion_factor_finish
  by_cases h : nd.2 = 0
  · simp [h]
  · simp only [h, if_neg, if_false, Bool.false_eq_true, Bool.true_eq_false,
      if_true, ite_false, ite_true, uint64_euclidean_gcd_eq]
    rw [Nat.gcd_comm (mul64 nd.2 (u64ofInt y)) (mul64 nd.1 (u64ofInt x))]

theorem conversion_factor_finish_diag (x y : Int) :
    conversion_factor_finish (1, 1) true x y =
      conversion_factor_finish (1, 1) false x y := by
  unfold conversion_factor_finish
  simp

/-- Swapping the two metadata transposes the conversion factor (for
non-generic bases): the ordered unit pair, and hence the accumulated
`(num, denom)`, is the same in both calls. -/
theorem conversion_factor_transpose (a b : PyArray_DatetimeMetaData)
    (ha : a.base ≠ NPY_FR_GENERIC) (hb : b.base ≠ NPY_FR_GENERIC) :
    get_datetime_conversion_factor a b =
      ⟨(get_datetime_conversion_factor b a).out_denom,
       (get_datetime_conversion_factor b a).out_num,
       (get_datetime_conversion_factor b a).err⟩ := by
  unfold get_datetime_conversion_factor
  rcases Nat.lt_trichotomy a.base.toNat b.base.toNat with h | h | h
  · have h1 : (decide (b.base.toNat < a.base.toNat)) = false := by
      simp only [decide_eq_false_iff_not]; omega
    have h2 : (decide (a.base.toNat < b.base.toNat)) = true := by
      simp only [decide_eq_true_eq]; omega
    simp only [if_neg ha, if_neg hb, h1, h2, Bool.false_eq_true,
      Bool.true_eq_false, if_true, if_false, ite_true, ite_false]
    exact conversion_factor_finish_transpose _ _ _
  · have heq : a.base = b.base := toNat_inj_units _ _ h
    have h1 : (decide (b.base.toNat < a.base.toNat)) = false := by
      simp only [decide_eq_false_iff_not]; omega
    have h2 : (decide (a.base.toNat < b.base.toNat)) = false := by
      simp only [decide_eq_false_iff_not]; omega
    simp only [if_neg ha, if_neg hb, h1, h2, Bool.false_eq_true,
      Bool.true_eq_false, if_true, if_false, ite_true, ite_false]
    have hch : conversion_factor_chunk a.base b.base = (1, 1) := by
      rw [heq, conversion_factor_chunk]; simp
    have hch2 : conversion_factor_chunk b.base a.base = (1, 1) := by
      rw [heq, conversion_factor_chunk]; simp
    rw [hch, hch2, conversion_factor_finish_transpose,
      conversion_factor_finish_diag]
  · have h1 : (decide (b.base.toNat < a.base.toNat)) = true := by
      simp only [decide_eq_true_eq]; omega
    have h2 : (decide (a.base.toNat < b.base.toNat)) = false := by
      simp only [decide_eq_false_iff_not]; omega
    simp only [if_neg ha, if_neg hb, h1, h2, Bool.false_eq_true,
      Bool.true_eq_false, if_true, if_false, ite_true, ite_false]
    have := conversion_factor_finish_transpose
      (conversion_factor_chunk b.base a.base) b.num a.num
    rw [this]

/-- C8 (counterexample): for `W/1` and `D/1` both factors are defined
(7/1 and 1/7), yet `num(a,b)·den(b,a) = 49 ≠ 1 = den(a,b)·num(b,a)`: the
spec's exactness identity pairs `num` with `den` the wrong way around. -/
theorem conversion_exactness_counterexample :
    conversion_factor_defined ⟨NPY_FR_W, 1⟩ ⟨NPY_FR_D, 1⟩ ∧
    conversion_factor_defined ⟨NPY_FR_D, 1⟩ ⟨NPY_FR_W, 1⟩ ∧
    (get_datetime_conversion_factor ⟨NPY_FR_W, 1⟩ ⟨NPY_FR_D, 1⟩).out_num *
      (get_datetime_conversion_factor ⟨NPY_FR_D, 1⟩ ⟨NPY_FR_W, 1⟩).out_denom ≠
    (get_datetime_conversion_factor ⟨NPY_FR_W, 1⟩ ⟨NPY_FR_D, 1⟩).out_denom *
      (get_datetime_conversion_factor ⟨NPY_FR_D, 1⟩ ⟨NPY_FR_W, 1⟩).out_num := by
  refine ⟨⟨by decide, by decide, by decide⟩, ⟨by decide, by decide, by decide⟩, by decide⟩

/-- C8 (amended): conversion exactness — for all metadata whose two
conversion factors are defined without overflow, the two factors are
exact reciprocals: `num(a,b)·num(b,a) = den(a,b)·den(b,a)`. -/
theorem conversion_factor_reciprocal_exactness (a b : PyArray_DatetimeMetaData)
    (h1 : conversion_factor_defined a b)
    (h2 : conversion_factor_defined b a) :
    (get_datetime_conversion_factor a b).out_num *
      (get_datetime_conversion_factor b a).out_num =
    (get_datetime_conversion_factor a b).out_denom *
      (get_datetime_conversion_factor b a).out_denom := by
  by_cases ha : a.base = NPY_FR_GENERIC
  · by_cases hb : b.base = NPY_FR_GENERIC
    · simp [get_datetime_conversion_factor, ha, hb]
    · exfalso
      have := h2.1
      rw [get_datetime_conversion_factor] at this
      simp [hb, ha] at this
  · by_cases hb : b.base = NPY_FR_GENERIC
    · exfalso
      have := h1.1
      rw [get_datetime_conversion_factor] at this
      simp [ha, hb] at this
    · rw [conversion_factor_transpose a b ha hb]
      exact mul_comm _ _

/-- C8 (witness): the reciprocal identity at `h/1` and `m/1`, whose
factors are 60/1 and 1/60. -/
theorem conversion_factor_reciprocal_exactness_witness :
    conversion_factor_defined ⟨NPY_FR_h, 1⟩ ⟨NPY_FR_m, 1⟩ ∧
    conversion_factor_defined ⟨NPY_FR_m, 1⟩ ⟨NPY_FR_h, 1⟩ ∧
    (get_datetime_conversion_factor ⟨NPY_FR_h, 1⟩ ⟨NPY_FR_m, 1⟩).out_num *
      (get_datetime_conversion_factor ⟨NPY_FR_m, 1⟩ ⟨NPY_FR_h, 1⟩).out_num =
    (get_datetime_conversion_factor ⟨NPY_FR_h, 1⟩ ⟨NPY_FR_m, 1⟩).out_denom *
      (get_datetime_conversion_factor ⟨NPY_FR_m, 1⟩ ⟨NPY_FR_h, 1⟩).out_denom :=
  ⟨⟨by decide, by decide, by decide⟩, ⟨by decide, by decide, by decide⟩,
   conversion_factor_reciprocal_exactness ⟨NPY_FR_h, 1⟩ ⟨NPY_FR_m, 1⟩
     ⟨by decide, by decide, by decide⟩ ⟨by decide, by decide, by decide⟩⟩

/-! ## Metadata GCD -/

/-- The final part of `compute_datetime_metadata_greatest_common_divisor`:
the GCD of the two multipliers and the positive-`int` range check. -/
def gcd_finish (base : NPY_DATETIMEUNIT) (num1 num2 : Nat) :
    Except PyErr PyArray_DatetimeMetaData :=
  let num := _uint64_euclidean_gcd num1 num2
  let n := int_of_u64 num
  if n ≤ 0 then .error .OverflowError
  else if num ≠ n.toNat then .error .OverflowError
  else .ok ⟨base, n⟩

/-- The nonlinear-unit validation chain of
`compute_datetime_metadata_greatest_common_divisor` for distinct bases:
either raises *incompatible nonlinear units* (`TypeError`) or passes the
(possibly rescaled) multipliers through.  The `base` value the C code
assigns inside these branches — including the `B → D` coercion — is a
dead store: the "take the greater base" step that follows assigns `base`
unconditionally. -/
def gcd_nonlinear_step (meta1 meta2 : PyArray_DatetimeMetaData)
    (strict1 strict2 : Bool) (num1 num2 : Nat) : Except PyErr (Nat × Nat) :=
  if meta1.base = NPY_FR_Y then
    if meta2.base = NPY_FR_M then .ok (mul64 num1 12, num2)
    else if strict1 then .error .TypeError
    else .ok (num1, num2)
  else if meta1.base = NPY_FR_B ∨ meta2.base = NPY_FR_B then
    if strict1 ∨ strict2 then .error .TypeError
    else .ok (num1, num2)
  else if meta2.base = NPY_FR_Y then
    if meta1.base = NPY_FR_M then .ok (num1, mul64 num2 12)
    else if strict2 then .error .TypeError
    else .ok (num1, num2)
  else if meta1.base = NPY_FR_M then
    if strict1 then .error .TypeError else .ok (num1, num2)
  else if meta2.base = NPY_FR_M then
    if strict2 then .error .TypeError else .ok (num1, num2)
  else .ok (num1, num2)

/-- `compute_datetime_metadata_greatest_common_divisor`: the GCD of two
metadata values, used as the type-promotion join. -/
def compute_datetime_metadata_greatest_common_divisor
    (meta1 meta2 : PyArray_DatetimeMetaData)
    (strict_with_nonlinear_units1 strict_with_nonlinear_units2 : Bool) :
    Except PyErr PyArray_DatetimeMetaData :=
  -- if either unit is generic, adopt the metadata from the other one
  if meta1.base = NPY_FR_GENERIC then .ok meta2
  else if meta2.base = NPY_FR_GENERIC then .ok meta1
  else
    let num1 := u64ofInt meta1.num
    let num2 := u64ofInt meta2.num
    if meta1.base = meta2.base then gcd_finish meta1.base num1 num2
    else
      match gcd_nonlinear_step meta1 meta2 strict_with_nonlinear_units1
          strict_with_nonlinear_units2 num1 num2 with
      | .error e => .error e
      | .ok nn =>
        -- take the greater base (unit sizes are decreasing in enum)
        if meta2.base.toNat < meta1.base.toNat then
          let num2 := mul64 nn.2 (get_datetime_units_factor meta2.base meta1.base)
          if num2 = 0 then .error .OverflowError
          else gcd_finish meta1.base nn.1 num2
        else
          let num1 := mul64 nn.1 (get_datetime_units_factor meta1.base meta2.base)
          if num1 = 0 then .error .OverflowError
          else gcd_finish meta2.base num1 nn.2

example : compute_datetime_metadata_greatest_common_divisor
    ⟨NPY_FR_Y, 1⟩ ⟨NPY_FR_M, 1⟩ false false = .ok ⟨NPY_FR_M, 1⟩ := by decide
example : compute_datetime_metadata_greatest_common_divisor
    ⟨NPY_FR_B, 1⟩ ⟨NPY_FR_D, 1⟩ true true = .error .TypeError := by decide
example : compute_datetime_metadata_greatest_common_divisor
    ⟨NPY_FR_B, 1⟩ ⟨NPY_FR_h, 1⟩ false false = .ok ⟨NPY_FR_h, 1⟩ := by decide

/-! ## Claim C4: gcd of business days and hours -/

/-- C4 (counterexample): `gcd_metadata(B/1, h/1)` with both strict flags
false returns `h/1`, not `D/1`: the `B → D` coercion inside the
business-day branch is immediately overwritten by the unconditional
"take the greater base" assignment, so the result adopts the finer unit
`h`. -/
theorem gcd_business_hour_counterexample :
    compute_datetime_metadata_greatest_common_divisor
        ⟨NPY_FR_B, 1⟩ ⟨NPY_FR_h, 1⟩ false false = .ok ⟨NPY_FR_h, 1⟩ ∧
    (⟨NPY_FR_h, 1⟩ : PyArray_DatetimeMetaData) ≠ ⟨NPY_FR_D, 1⟩ := by decide

/-- C4 (amended): `gcd_metadata(B/1, h/1)` with both strict flags false
returns `h/1` — under relaxed strictness business days combine with
another unit by adopting the finer of the two units (the dead `B → D`
coercion only matters for `B`'s multiplier scaling, via
`units_factor(B, h) = 24`). -/
theorem gcd_business_hour_is_hour :
    compute_datetime_metadata_greatest_common_divisor
        ⟨NPY_FR_B, 1⟩ ⟨NPY_FR_h, 1⟩ false false = .ok ⟨NPY_FR_h, 1⟩ := by
  decide

/-! ## Claim C7: GCD commutativity and idempotence -/

theorem gcd_finish_comm (base : NPY_DATETIMEUNIT) (x y : Nat) :
    gcd_finish base x y = gcd_finish base y x := by
  unfold gcd_finish
  rw [uint64_euclidean_gcd_eq, uint64_euclidean_gcd_eq, Nat.gcd_comm]

/-- Data-model metadata: the multiplier is a positive `i32`, and generic
metadata carries the conventional multiplier 1. -/
def metadata_valid (m : PyArray_DatetimeMetaData) : Prop :=
  1 ≤ m.num ∧ m.num < 2147483648 ∧ (m.base = NPY_FR_GENERIC → m.num = 1)

/-- C7: with the same strict flag on both sides, the metadata GCD is
commutative (errors included), and it is idempotent on valid metadata. -/
theorem gcd_metadata_comm_and_idem (a b : PyArray_DatetimeMetaData) (s : Bool)
    (ha : metadata_valid a) (hb : metadata_valid b) :
    compute_datetime_metadata_greatest_common_divisor a b s s =
      compute_datetime_metadata_greatest_common_divisor b a s s ∧
    compute_datetime_metadata_greatest_common_divisor a a s s = .ok a := by
  constructor
  · obtain ⟨ha1, ha2, ha3⟩ := ha
    obtain ⟨hb1, hb2, hb3⟩ := hb
    obtain ⟨ab, an⟩ := a
    obtain ⟨bb, bn⟩ := b
    simp only at ha3 hb3
    cases s <;> cases ab <;> cases bb <;>
      simp_all [compute_datetime_metadata_greatest_common_divisor,
        gcd_nonlinear_step, gcd_finish_comm, NPY_DATETIMEUNIT.toNat]
  · obtain ⟨ha1, ha2, _⟩ := ha
    by_cases hg : a.base = NPY_FR_GENERIC
    · simp [compute_datetime_metadata_greatest_common_divisor, hg]
    · have h64 : u64ofInt a.num = a.num.toNat := by
        unfold u64ofInt
        rw [Int.emod_eq_of_lt (by omega) (by omega)]
      simp only [compute_datetime_metadata_greatest_common_divisor, hg,
        if_neg, if_false, ite_false, ite_true, if_pos rfl]
      rw [h64]
      simp only [gcd_finish]
      rw [uint64_euclidean_gcd_eq, Nat.gcd_self]
      have hn : int_of_u64 a.num.toNat = a.num := by
        simp only [int_of_u64]
        rw [Nat.mod_eq_of_lt (by omega), if_pos (by omega)]
        omega
      rw [hn, if_neg (by omega), if_neg (by simp)]

/-- C7 (witness): commutativity and idempotence at the concrete valid
metadata `D/2` and `h/3`. -/
theorem gcd_metadata_comm_and_idem_witness :
    metadata_valid ⟨NPY_FR_D, 2⟩ ∧ metadata_valid ⟨NPY_FR_h, 3⟩ ∧
    (compute_datetime_metadata_greatest_common_divisor
        ⟨NPY_FR_D, 2⟩ ⟨NPY_FR_h, 3⟩ false false =
      compute_datetime_metadata_greatest_common_divisor
        ⟨NPY_FR_h, 3⟩ ⟨NPY_FR_D, 2⟩ false false ∧
     compute_datetime_metadata_greatest_common_divisor
        ⟨NPY_FR_D, 2⟩ ⟨NPY_FR_D, 2⟩ false false = .ok ⟨NPY_FR_D, 2⟩) :=
  ⟨⟨by decide, by decide, by decide⟩, ⟨by decide, by decide, by decide⟩,
   gcd_metadata_comm_and_idem ⟨NPY_FR_D, 2⟩ ⟨NPY_FR_h, 3⟩ false
     ⟨by decide, by decide, by decide⟩ ⟨by decide, by decide, by decide⟩⟩

/-! ## Metadata string parsing -/

/-- Whitespace as skipped by `strtol`. -/
def c_isspace (c : Char) : Bool :=
  c = ' ' ∨ c = '\t' ∨ c = '\n' ∨ c = '\r' ∨ c = '\x0b' ∨ c = '\x0c'

/-- The digit-accumulation loop of `strtol` (base 10). -/
def strtol_digits : List Char → Nat → Nat × List Char
  | [], acc => (acc, [])
  | c :: rest, acc =>
    if c.isDigit then strtol_digits rest (10 * acc + (c.toNat - 48))
    else (acc, c :: rest)

/-- `strtol(str, &endptr, 10)` on a character list: returns the `long`
value (clamped to the `long` range on overflow), whether any conversion
was performed (if not, `endptr` is reset to the start), and the rest of
the input after the number. -/
def strtol10 (s : List Char) : Int × Bool × List Char :=
  let s1 := s.dropWhile c_isspace
  let neg := match s1 with | '-' :: _ => true | _ => false
  let s2 := match s1 with
    | '-' :: r => r
    | '+' :: r => r
    | _ => s1
  match s2 with
  | c :: _ =>
    if c.isDigit then
      let (n, rest) := strtol_digits s2 0
      let v : Int := if neg then -(n : Int) else (n : Int)
      let v := if v < -9223372036854775808 then -9223372036854775808
        else if 9223372036854775807 < v then 9223372036854775807 else v
      (v, true, rest)
    else (0, false, s)
  | [] => (0, false, s)

/-- The C cast `(int)x` of a `long` value (keep low 32 bits, signed). -/
def int_of_long (x : Int) : Int :=
  let low := x % 4294967296
  if low < 2147483648 then low else low - 4294967296

/-- `parse_datetime_unit_from_string`: a date-time unit name.  All the
two-letter units are variants of seconds. -/
def parse_datetime_unit_from_string (s : List Char) :
    Except PyErr NPY_DATETIMEUNIT :=
  match s with
  | ['Y'] => .ok NPY_FR_Y
  | ['M'] => .ok NPY_FR_M
  | ['W'] => .ok NPY_FR_W
  | ['B'] => .ok NPY_FR_B
  | ['D'] => .ok NPY_FR_D
  | ['h'] => .ok NPY_FR_h
  | ['m'] => .ok NPY_FR_m
  | ['s'] => .ok NPY_FR_s
  | ['m', 's'] => .ok NPY_FR_ms
  | ['u', 's'] => .ok NPY_FR_us
  | ['n', 's'] => .ok NPY_FR_ns
  | ['p', 's'] => .ok NPY_FR_ps
  | ['f', 's'] => .ok NPY_FR_fs
  | ['a', 's'] => .ok NPY_FR_as
  | _ => .error .TypeError

/-- The `totry` rows of `_multiples_table` (with the in-place rewriting
the C code performs for bases at or below seconds applied): candidate
multiples of the divisor. -/
def _multiples_totry : NPY_DATETIMEUNIT → List Int
  | NPY_FR_Y => [12, 52, 365]
  | NPY_FR_M => [4, 30, 720]
  | NPY_FR_W => [5, 7, 168, 10080]
  | NPY_FR_B => [24, 1440, 86400]
  | NPY_FR_D => [24, 1440, 86400]
  | NPY_FR_h => [60, 3600]
  | NPY_FR_m => [60, 60000]
  | NPY_FR_s => [1000, 1000000]
  | NPY_FR_ms => [1000, 1000000]
  | NPY_FR_us => [1000, 1000000]
  | NPY_FR_ns => [1000, 1000000]
  | NPY_FR_ps => [1000, 1000000]
  | NPY_FR_fs => [1000]
  | NPY_FR_as => []
  | NPY_FR_GENERIC => []

/-- The `baseunit` rows of `_multiples_table`: the finer unit adopted for
each candidate (for bases at or below seconds, `base + 1` and
`base + 2`). -/
def _multiples_baseunit : NPY_DATETIMEUNIT → List NPY_DATETIMEUNIT
  | NPY_FR_Y => [NPY_FR_M, NPY_FR_W, NPY_FR_D]
  | NPY_FR_M => [NPY_FR_W, NPY_FR_D, NPY_FR_h]
  | NPY_FR_W => [NPY_FR_B, NPY_FR_D, NPY_FR_h, NPY_FR_m]
  | NPY_FR_B => [NPY_FR_h, NPY_FR_m, NPY_FR_s]
  | NPY_FR_D => [NPY_FR_h, NPY_FR_m, NPY_FR_s]
  | NPY_FR_h => [NPY_FR_m, NPY_FR_s]
  | NPY_FR_m => [NPY_FR_s, NPY_FR_ms]
  | NPY_FR_s => [NPY_FR_ms, NPY_FR_us]
  | NPY_FR_ms => [NPY_FR_us, NPY_FR_ns]
  | NPY_FR_us => [NPY_FR_ns, NPY_FR_ps]
  | NPY_FR_ns => [NPY_FR_ps, NPY_FR_fs]
  | NPY_FR_ps => [NPY_FR_fs, NPY_FR_as]
  | NPY_FR_fs => [NPY_FR_as]
  | NPY_FR_as => []
  | NPY_FR_GENERIC => []

/-- The search loop of `convert_datetime_divisor_to_multiple`: the first
candidate that the divisor divides evenly, with its quotient. -/
def divisor_loop : List Int → List NPY_DATETIMEUNIT → Int →
    Option (NPY_DATETIMEUNIT × Int)
  | t :: ts, b :: bs, den =>
    if cmod t den = 0 then some (b, cdiv t den) else divisor_loop ts bs den
  | _, _, _ => none

/-- `convert_datetime_divisor_to_multiple`: translate a divisor into a
multiple of a smaller unit. -/
def convert_datetime_divisor_to_multiple (meta : PyArray_DatetimeMetaData)
    (den : Int) : Except PyErr PyArray_DatetimeMetaData :=
  if meta.base = NPY_FR_GENERIC then .error .ValueError
  else
    match divisor_loop (_multiples_totry meta.base)
        (_multiples_baseunit meta.base) den with
    | none => .error .ValueError
    | some bq => .ok ⟨bq.1, meta.num * bq.2⟩

/-- `parse_datetime_extended_unit_from_string`: parses `[num] unit [/den]`.
`str` is the delimited substring; `after` is the rest of the underlying
buffer (the caller inside `parse_datetime_metadata_from_metastr` passes
the closing `']' :: …`, which the C code inspects one byte past the
substring in the denominator branch). -/
def parse_datetime_extended_unit_from_string (str after : List Char) :
    Except PyErr PyArray_DatetimeMetaData :=
  -- first comes an optional integer multiplier
  let t := strtol10 str
  let num := if t.2.1 then int_of_long t.1 else 1
  let rest := t.2.2
  -- next comes the unit itself, followed by either '/' or the string end
  let unit_part := rest.takeWhile (fun c => c ≠ '/')
  let remainder := rest.dropWhile (fun c => c ≠ '/')
  if unit_part = [] then .error .TypeError
  else
    match parse_datetime_unit_from_string unit_part with
    | .error e => .error e
    | .ok base =>
      match remainder with
      | '/' :: denpart =>
        -- next comes an integer denominator; the '/' requires a number
        -- followed by ']'
        let d := strtol10 denpart
        if ¬ d.2.1 then .error .TypeError
        else if d.2.2 ≠ [] then .error .TypeError
        else if after.head? ≠ some ']' then .error .TypeError
        else
          let den := int_of_long d.1
          if den ≠ 1 then
            convert_datetime_divisor_to_multiple ⟨base, num⟩ den
          else .ok ⟨base, num⟩
      | _ => .ok ⟨base, num⟩

/-- `parse_datetime_metadata_from_metastr`: parses a full metadata string;
the empty string means generic units, otherwise the form is `[ext]`. -/
def parse_datetime_metadata_from_metastr (metastr : List Char) :
    Except PyErr PyArray_DatetimeMetaData :=
  -- treat the empty string as generic units
  if metastr.length = 0 then .ok ⟨NPY_FR_GENERIC, 1⟩
  else if metastr.length < 3 then .error .TypeError
  else
    match metastr with
    | '[' :: rest =>
      let inside := rest.takeWhile (fun c => c ≠ ']')
      let remainder := rest.dropWhile (fun c => c ≠ ']')
      if remainder = [] then .error .TypeError    -- no closing bracket
      else if inside = [] then .error .TypeError  -- empty brackets
      else
        match parse_datetime_extended_unit_from_string inside remainder with
        | .error e => .error e
        | .ok meta =>
          -- the ']' must be the last character
          if remainder.tail ≠ [] then .error .TypeError else .ok meta
    | _ => .error .TypeError

example : parse_datetime_metadata_from_metastr ['[', '7', 'D', ']'] =
    .ok ⟨NPY_FR_D, 7⟩ := by decide
example : parse_datetime_metadata_from_metastr
    ['[', '1', 'M', '/', '3', '0', ']'] = .ok ⟨NPY_FR_D, 1⟩ := by decide
example : parse_datetime_metadata_from_metastr [] =
    .ok ⟨NPY_FR_GENERIC, 1⟩ := by decide
example : parse_datetime_metadata_from_metastr ['[', 'q', ']'] =
    .error .TypeError := by decide

/-! ## Claim C9: multiplier positivity is not checked by the parser -/

/-- C9 (code bug): the metadata-string parser performs no positivity
check on the multiplier: `"[0D]"` parses successfully to metadata `D/0`
(and `"[-3D]"` to a metadata with multiplier -3), violating the
documented invariant that the
multiplier is a positive `i32`.  The sibling tuple conversion path
(`convert_datetime_metadata_tuple_to_datetime_metadata`) rejects
`num <= 0` with a `TypeError`, as the claim describes. -/
theorem parse_metastr_zero_multiplier_accepted :
    parse_datetime_metadata_from_metastr ['[', '0', 'D', ']'] =
        .ok ⟨NPY_FR_D, 0⟩ ∧
    parse_datetime_metadata_from_metastr ['[', '-', '3', 'D', ']'] =
        .ok ⟨NPY_FR_D, -3⟩ := by decide

/-! ## Claim C10: day-offset round trip -/

/-- Closed form of the year part of `get_datetimestruct_days` (floor
divisions): the day offset of January 1 of `year` from the epoch. -/
def yearsDaysF (year : Int) : Int :=
  365 * (year - 1970) + (year - 1969) / 4 - (year - 1901) / 100 +
    (year - 1601) / 400

theorem get_datetimestruct_days_eq (dts : npy_datetimestruct) :
    get_datetimestruct_days dts =
      yearsDaysF dts.year +
      month_prefix_sum (_days_per_month_table (is_leapyear dts.year))
        (dts.month - 1) + (dts.day - 1) := by
  simp only [get_datetimestruct_days, yearsDaysF, cdiv]
  split_ifs <;> omega

theorem is_leapyear_iff (y : Int) :
    is_leapyear y = true ↔ (y % 4 = 0 ∧ (y % 100 ≠ 0 ∨ y % 400 = 0)) := by
  simp only [is_leapyear, cmod, Bool.and_eq_true, Bool.or_eq_true, beq_iff_eq,
    bne_iff_ne, ne_eq]
  split_ifs <;> omega


/-- Days from January 1 of the cycle base year to January 1 of year
`yy` within a 400-year cycle (0 ≤ yy < 400). -/
def cycle_days (yy : Int) : Int :=
  365 * yy + (yy + 3) / 4 - (yy + 99) / 100 + (yy + 399) / 400

theorem days_to_yearsdays_peel_spec (y r : Int) (h0 : 0 ≤ r)
    (h1 : r < 146097) :
    0 ≤ (days_to_yearsdays_peel y r).1 - 2000 - y ∧
    (days_to_yearsdays_peel y r).1 - 2000 - y < 400 ∧
    cycle_days ((days_to_yearsdays_peel y r).1 - 2000 - y) +
      (days_to_yearsdays_peel y r).2 = r ∧
    0 ≤ (days_to_yearsdays_peel y r).2 ∧
    ((days_to_yearsdays_peel y r).2 < 365 ∨
      ((days_to_yearsdays_peel y r).2 = 365 ∧
        ((days_to_yearsdays_peel y r).1 - 2000 - y) % 4 = 0 ∧
        (((days_to_yearsdays_peel y r).1 - 2000 - y) % 100 ≠ 0 ∨
         ((days_to_yearsdays_peel y r).1 - 2000 - y) % 400 = 0))) := by
  unfold days_to_yearsdays_peel
  by_cases hA : 366 ≤ r
  · rw [if_pos hA]
    have e1 : cdiv (r - 1) (100 * 365 + 25 - 1) = (r - 1) / 36524 := by
      unfold cdiv; rw [if_pos (by omega : (0:Int) ≤ r - 1)]; norm_num
    have e2 : cmod (r - 1) (100 * 365 + 25 - 1) = (r - 1) % 36524 := by
      unfold cmod; rw [if_pos (by omega : (0:Int) ≤ r - 1)]; norm_num
    rw [e1, e2]
    by_cases hB : 365 ≤ (r - 1) % 36524
    · rw [if_pos hB]
      have e3 : cdiv ((r - 1) % 36524 + 1) (4 * 365 + 1) =
          ((r - 1) % 36524 + 1) / 1461 := by
        unfold cdiv; rw [if_pos (by omega : (0:Int) ≤ (r - 1) % 36524 + 1)]
        norm_num
      have e4 : cmod ((r - 1) % 36524 + 1) (4 * 365 + 1) =
          ((r - 1) % 36524 + 1) % 1461 := by
        unfold cmod; rw [if_pos (by omega : (0:Int) ≤ (r - 1) % 36524 + 1)]
        norm_num
      rw [e3, e4]
      by_cases hC : 366 ≤ ((r - 1) % 36524 + 1) % 1461
      · rw [if_pos hC]
        have e5 : cdiv (((r - 1) % 36524 + 1) % 1461 - 1) 365 =
            (((r - 1) % 36524 + 1) % 1461 - 1) / 365 := by
          unfold cdiv
          rw [if_pos (by omega : (0:Int) ≤ ((r - 1) % 36524 + 1) % 1461 - 1)]
        have e6 : cmod (((r - 1) % 36524 + 1) % 1461 - 1) 365 =
            (((r - 1) % 36524 + 1) % 1461 - 1) % 365 := by
          unfold cmod
          rw [if_pos (by omega : (0:Int) ≤ ((r - 1) % 36524 + 1) % 1461 - 1)]
        rw [e5, e6]
        dsimp only
        have harg : y + 100 * ((r - 1) / 36524) +
            4 * (((r - 1) % 36524 + 1) / 1461) +
            (((r - 1) % 36524 + 1) % 1461 - 1) / 365 + 2000 - 2000 - y =
            100 * ((r - 1) / 36524) + 4 * (((r - 1) % 36524 + 1) / 1461) +
            (((r - 1) % 36524 + 1) % 1461 - 1) / 365 := by ring
        rw [harg]
        unfold cycle_days
        have hb : 0 ≤ (r - 1) / 36524 ∧ (r - 1) / 36524 ≤ 3 := by omega
        have hc : 0 ≤ ((r - 1) % 36524 + 1) / 1461 ∧
            ((r - 1) % 36524 + 1) / 1461 ≤ 24 := by omega
        have hd : 1 ≤ (((r - 1) % 36524 + 1) % 1461 - 1) / 365 ∧
            (((r - 1) % 36524 + 1) % 1461 - 1) / 365 ≤ 3 := by omega
        have he : (100 * ((r - 1) / 36524) + 4 * (((r - 1) % 36524 + 1) / 1461) +
              ((((r - 1) % 36524 + 1) % 1461 - 1) / 365) + 3) / 4 =
            25 * ((r - 1) / 36524) + (((r - 1) % 36524 + 1) / 1461) + 1 := by
          omega
        have hf : (100 * ((r - 1) / 36524) + 4 * (((r - 1) % 36524 + 1) / 1461) +
              ((((r - 1) % 36524 + 1) % 1461 - 1) / 365) + 99) / 100 =
            ((r - 1) / 36524) + 1 := by omega
        have hg : (100 * ((r - 1) / 36524) + 4 * (((r - 1) % 36524 + 1) / 1461) +
              ((((r - 1) % 36524 + 1) % 1461 - 1) / 365) + 399) / 400 = 1 := by
          omega
        omega
      · rw [if_neg hC]
        dsimp only
        have harg : y + 100 * ((r - 1) / 36524) +
            4 * (((r - 1) % 36524 + 1) / 1461) + 2000 - 2000 - y =
            100 * ((r - 1) / 36524) +
            4 * (((r - 1) % 36524 + 1) / 1461) := by ring
        rw [harg]
        unfold cycle_days
        have hb : 0 ≤ (r - 1) / 36524 ∧ (r - 1) / 36524 ≤ 3 := by omega
        have hc : 1 ≤ ((r - 1) % 36524 + 1) / 1461 ∧
            ((r - 1) % 36524 + 1) / 1461 ≤ 24 := by omega
        have he : (100 * ((r - 1) / 36524) + 4 * (((r - 1) % 36524 + 1) / 1461)
              + 3) / 4 =
            25 * ((r - 1) / 36524) + (((r - 1) % 36524 + 1) / 1461) := by omega
        have hf : (100 * ((r - 1) / 36524) + 4 * (((r - 1) % 36524 + 1) / 1461)
              + 99) / 100 = ((r - 1) / 36524) + 1 := by omega
        have hg : (100 * ((r - 1) / 36524) + 4 * (((r - 1) % 36524 + 1) / 1461)
              + 399) / 400 = 1 := by omega
        omega
    · rw [if_neg hB]
      dsimp only
      have harg : y + 100 * ((r - 1) / 36524) + 2000 - 2000 - y =
          100 * ((r - 1) / 36524) := by ring
      rw [harg]
      unfold cycle_days
      have hb : 1 ≤ (r - 1) / 36524 ∧ (r - 1) / 36524 ≤ 3 := by omega
      have he : (100 * ((r - 1) / 36524) + 3) / 4 =
          25 * ((r - 1) / 36524) := by omega
      have hf : (100 * ((r - 1) / 36524) + 99) / 100 =
          ((r - 1) / 36524) := by omega
      have hg : (100 * ((r - 1) / 36524) + 399) / 400 = 1 := by omega
      omega
  · rw [if_neg hA]
    dsimp only
    have harg : y + 2000 - 2000 - y = 0 := by ring
    rw [harg]
    unfold cycle_days
    omega

theorem days_to_yearsdays_stage1 (d : Int) :
    days_to_yearsdays d = days_to_yearsdays_peel
      (400 * ((d - 10957) / 146097)) ((d - 10957) % 146097) := by
  simp only [days_to_yearsdays, cdiv, cmod]
  split_ifs <;> congr 1 <;> omega

theorem days_to_yearsdays_spec (d : Int) :
    yearsDaysF (days_to_yearsdays d).1 + (days_to_yearsdays d).2 = d ∧
    0 ≤ (days_to_yearsdays d).2 ∧
    ((days_to_yearsdays d).2 < 365 ∨
      ((days_to_yearsdays d).2 = 365 ∧ (days_to_yearsdays d).1 % 4 = 0 ∧
        ((days_to_yearsdays d).1 % 100 ≠ 0 ∨
         (days_to_yearsdays d).1 % 400 = 0))) := by
  rw [days_to_yearsdays_stage1 d]
  have h0 : 0 ≤ (d - 10957) % 146097 := Int.emod_nonneg _ (by norm_num)
  have h1 : (d - 10957) % 146097 < 146097 :=
    Int.emod_lt_of_pos _ (by norm_num)
  obtain ⟨hp1, hp2, hp3, hp4, hp5⟩ :=
    days_to_yearsdays_peel_spec (400 * ((d - 10957) / 146097))
      ((d - 10957) % 146097) h0 h1
  set q := (d - 10957) / 146097 with hq
  set rr := (d - 10957) % 146097 with hrr
  set P := (days_to_yearsdays_peel (400 * q) rr).1 with hP
  set doy := (days_to_yearsdays_peel (400 * q) rr).2 with hdoy
  have hkey : yearsDaysF P - cycle_days (P - 2000 - 400 * q) =
      10957 + 146097 * q := by
    unfold yearsDaysF cycle_days
    have hA : P - 1969 = P - 2000 - 400 * q + 3 + (100 * q + 7) * 4 := by ring
    have hB : P - 1901 = P - 2000 - 400 * q + 99 + (4 * q) * 100 := by ring
    have hC : P - 1601 = P - 2000 - 400 * q + 399 + q * 400 := by ring
    rw [hA, Int.add_mul_ediv_right _ _ (by norm_num : (4:Int) ≠ 0),
        hB, Int.add_mul_ediv_right _ _ (by norm_num : (100:Int) ≠ 0),
        hC, Int.add_mul_ediv_right _ _ (by norm_num : (400:Int) ≠ 0)]
    omega
  have hmod4 : P % 4 = (P - 2000 - 400 * q) % 4 := by omega
  have hmod100 : P % 100 = (P - 2000 - 400 * q) % 100 := by omega
  have hmod400 : (P - 2000 - 400 * q) % 400 = 0 → P % 400 = 0 := by omega
  have hmod400' : P % 400 = 0 → (P - 2000 - 400 * q) % 400 = 0 := by omega
  omega

theorem set_days_loop_go (ml : List Int) : ∀ (i doy : Int) (md : Int × Int),
    (∀ x ∈ ml, 1 ≤ x) → 0 ≤ doy → doy < ml.sum →
    i + 1 ≤ (set_days_loop i ml doy md).1 ∧
    (set_days_loop i ml doy md).1 ≤ i + ml.length ∧
    1 ≤ (set_days_loop i ml doy md).2 ∧
    (set_days_loop i ml doy md).2 ≤
      ml.getD ((set_days_loop i ml doy md).1 - i - 1).toNat 0 ∧
    (ml.take ((set_days_loop i ml doy md).1 - i - 1).toNat).sum +
      ((set_days_loop i ml doy md).2 - 1) = doy := by
  induction ml with
  | nil =>
    intro i doy md _ h0 hlt
    simp only [List.sum_nil] at hlt
    omega
  | cons x rest ih =>
    intro i doy md hml h0 hlt
    rw [set_days_loop]
    by_cases hx : doy < x
    · rw [if_pos hx]
      refine ⟨by omega, ?_, by omega, ?_, ?_⟩
      · simp only [List.length_cons]
        omega
      · have : (i + 1 - i - 1).toNat = 0 := by omega
        rw [this]
        simpa using hx
      · have : (i + 1 - i - 1).toNat = 0 := by omega
        rw [this]
        simp
    · rw [if_neg hx]
      have hx1 : 1 ≤ x := hml x (by simp)
      have h0' : 0 ≤ doy - x := by omega
      have hlt' : doy - x < rest.sum := by
        simp only [List.sum_cons] at hlt; omega
      obtain ⟨h1, h2, h3, h4, h5⟩ :=
        ih (i + 1) (doy - x) md (fun y hy => hml y (by simp [hy])) h0' hlt'
      refine ⟨by omega, ?_, by omega, ?_, ?_⟩
      · simp only [List.length_cons]; omega
      · have hk : ((set_days_loop (i + 1) rest (doy - x) md).1 - i - 1).toNat =
            ((set_days_loop (i + 1) rest (doy - x) md).1 - (i + 1) - 1).toNat
              + 1 := by omega
        rw [hk, List.getD_cons_succ]
        exact h4
      · have hk : ((set_days_loop (i + 1) rest (doy - x) md).1 - i - 1).toNat =
            ((set_days_loop (i + 1) rest (doy - x) md).1 - (i + 1) - 1).toNat
              + 1 := by omega
        rw [hk, List.take_succ_cons, List.sum_cons]
        omega

theorem set_days_loop_spec (le : Bool) (doy mo dd : Int) (h0 : 0 ≤ doy)
    (h1 : doy < if le then 366 else 365) :
    1 ≤ (set_days_loop 0 (_days_per_month_table le) doy (mo, dd)).1 ∧
    (set_days_loop 0 (_days_per_month_table le) doy (mo, dd)).1 ≤ 12 ∧
    1 ≤ (set_days_loop 0 (_days_per_month_table le) doy (mo, dd)).2 ∧
    (set_days_loop 0 (_days_per_month_table le) doy (mo, dd)).2 ≤
      (_days_per_month_table le).getD
        ((set_days_loop 0 (_days_per_month_table le) doy (mo, dd)).1 - 1).toNat
        0 ∧
    month_prefix_sum (_days_per_month_table le)
        ((set_days_loop 0 (_days_per_month_table le) doy (mo, dd)).1 - 1) +
      ((set_days_loop 0 (_days_per_month_table le) doy (mo, dd)).2 - 1) =
      doy := by
  have hml : ∀ x ∈ _days_per_month_table le, 1 ≤ x := by
    cases le <;> decide
  have hsum : (_days_per_month_table le).sum = if le then 366 else 365 := by
    cases le <;> decide
  have hlen : (_days_per_month_table le).length = 12 := by
    cases le <;> decide
  obtain ⟨g1, g2, g3, g4, g5⟩ :=
    set_days_loop_go (_days_per_month_table le) 0 doy (mo, dd) hml h0
      (by rw [hsum]; exact h1)
  refine ⟨by omega, by omega, by omega, ?_, ?_⟩
  · have : (set_days_loop 0 (_days_per_month_table le) doy (mo, dd)).1 - 0 - 1 =
        (set_days_loop 0 (_days_per_month_table le) doy (mo, dd)).1 - 1 := by
      omega
    rwa [this] at g4
  · have : (set_days_loop 0 (_days_per_month_table le) doy (mo, dd)).1 - 0 - 1 =
        (set_days_loop 0 (_days_per_month_table le) doy (mo, dd)).1 - 1 := by
      omega
    rw [this] at g5
    exact g5

/-- C10: converting any day offset to a broken-down date with
`set_datetimestruct_days` and back with `get_datetimestruct_days` is the
identity, and the produced month and day are within range. -/
theorem set_get_datetimestruct_days_roundtrip (d : Int)
    (dts : npy_datetimestruct) :
    get_datetimestruct_days (set_datetimestruct_days d dts) = d ∧
    1 ≤ (set_datetimestruct_days d dts).month ∧
    (set_datetimestruct_days d dts).month ≤ 12 ∧
    1 ≤ (set_datetimestruct_days d dts).day ∧
    (set_datetimestruct_days d dts).day ≤
      days_in_month (set_datetimestruct_days d dts).year
        (set_datetimestruct_days d dts).month := by
  obtain ⟨hy1, hy2, hy3⟩ := days_to_yearsdays_spec d
  set y := (days_to_yearsdays d).1 with hy
  set doy := (days_to_yearsdays d).2 with hdoy
  have hleap : doy < if is_leapyear y then 366 else 365 := by
    by_cases hl : is_leapyear y
    · rw [if_pos hl]; omega
    · rw [if_neg hl]
      rcases hy3 with h | ⟨h365, hmod⟩
      · omega
      · exact absurd ((is_leapyear_iff y).2 hmod) hl
  have hset : set_datetimestruct_days d dts =
      { dts with
        year := y
        month := (set_days_loop 0 (_days_per_month_table (is_leapyear y)) doy
          (dts.month, dts.day)).1
        day := (set_days_loop 0 (_days_per_month_table (is_leapyear y)) doy
          (dts.month, dts.day)).2 } := rfl
  obtain ⟨m1, m2, m3, m4, m5⟩ :=
    set_days_loop_spec (is_leapyear y) doy dts.month dts.day hy2 hleap
  rw [hset]
  refine ⟨?_, m1, m2, m3, ?_⟩
  · rw [get_datetimestruct_days_eq]
    dsimp only
    omega
  · dsimp only
    unfold days_in_month
    exact m4
